import Mathlib

/-!
Shallow embedding of the `celestial` bootstrap (src/main.rs): a surface
session (`App`) owning GPU handles and a surface configuration, a
constructor `App.new`, a mutator `App.resize`, and the window-event
dispatch of `main`.

External collaborators (the windowing layer and the GPU driver) are
modelled as opaque handles passed into the constructor; what the driver
reports for the adapter+surface pair is the `SurfaceCapabilities` record.
Side effects (diagnostic prints, `surface.configure`, the platform call
`request_inner_size`) are recorded in an explicit `Effect` trace.
Rust panics from indexing/unwrap are modelled by `Option`: `none` is a
panic.
-/

/-- Physical pixel dimensions (winit `PhysicalSize<u32>`). -/
structure PhysicalSize where
  width : Nat
  height : Nat
deriving DecidableEq

/-- Opaque handle to the GPU backend instance (wgpu `Instance`). -/
structure Instance where
  id : Nat
deriving DecidableEq

/-- Opaque handle to the presentable surface (wgpu `Surface`). -/
structure Surface where
  id : Nat
deriving DecidableEq

/-- Opaque handle to the physical device (wgpu `Adapter`). -/
structure Adapter where
  id : Nat
deriving DecidableEq

/-- Opaque handle to the logical device (wgpu `Device`). -/
structure Device where
  id : Nat
deriving DecidableEq

/-- Opaque handle to the command queue (wgpu `Queue`). -/
structure Queue where
  id : Nat
deriving DecidableEq

/-- A texture format as the session observes it: an identity plus the one
bit of behaviour the code consults, `is_srgb`. -/
structure TextureFormat where
  id : Nat
  srgb : Bool
deriving DecidableEq

/-- wgpu `TextureFormat::is_srgb`. -/
def TextureFormat.is_srgb (f : TextureFormat) : Bool :=
  f.srgb

/-- A present mode handle (wgpu `PresentMode`). -/
structure PresentMode where
  id : Nat
deriving DecidableEq

/-- An alpha compositing mode handle (wgpu `CompositeAlphaMode`). -/
structure AlphaMode where
  id : Nat
deriving DecidableEq

/-- Texture usage flags, as the wgpu bitflags value. -/
abbrev TextureUsages := Nat

/-- wgpu `TextureUsages::RENDER_ATTACHMENT` (bit 4). -/
def TextureUsages.RENDER_ATTACHMENT : TextureUsages := 16

/-- wgpu `SurfaceConfiguration`, the fields the code sets. -/
structure SurfaceConfiguration where
  usage : TextureUsages
  format : TextureFormat
  width : Nat
  height : Nat
  present_mode : PresentMode
  alpha_mode : AlphaMode
  view_formats : List TextureFormat
  desired_maximum_frame_latency : Nat
deriving DecidableEq

/-- What `surface.get_capabilities(&adapter)` reports. -/
structure SurfaceCapabilities where
  formats : List TextureFormat
  present_modes : List PresentMode
  alpha_modes : List AlphaMode
deriving DecidableEq

/-- The platform window: its id and its current inner (physical) size. -/
structure Window where
  id : Nat
  inner_size : PhysicalSize
deriving DecidableEq

/-- Observable side effects of the session code, in program order. -/
inductive Effect where
  /-- `println!("Application Resized to ...")` at the top of `resize`. -/
  | logResized (new_size : PhysicalSize)
  /-- `self.surface.configure(&self.device, &self.surface_config)`. -/
  | configure (device : Device) (config : SurfaceConfiguration)
  /-- `println!("Close Requested")` in the event loop. -/
  | logCloseRequested
  /-- `inner_size_writer.request_inner_size(size)` in the event loop. -/
  | requestInnerSize (size : PhysicalSize)
deriving DecidableEq

/-- The `App` struct of src/main.rs. -/
structure App where
  instance_ : Instance
  surface : Surface
  surface_format : TextureFormat
  surface_config : SurfaceConfiguration
  adapter : Adapter
  device : Device
  queue : Queue
  window : Window
  size : PhysicalSize
deriving DecidableEq

/-- `App::new`.  The handles the external collaborators return (instance,
surface, adapter, device, queue) are parameters, as is the capability
record the driver reports.  Indexing an empty capability list is a Rust
panic, modelled by `none`.  The returned list is the trace of observable
effects `new` performs. -/
def App.new (window : Window) (inst : Instance) (surface : Surface)
    (adapter : Adapter) (device : Device) (queue : Queue)
    (surface_caps : SurfaceCapabilities) : Option (App × List Effect) := do
  -- let size = window.inner_size();
  let size := window.inner_size
  -- surface_caps.formats[0]  (argument of unwrap_or, evaluated eagerly)
  let first_format ← surface_caps.formats.head?
  -- surface_caps.formats.iter().copied().filter(|f| f.is_srgb()).next()
  --   .unwrap_or(surface_caps.formats[0])
  let surface_format :=
    (surface_caps.formats.filter (fun f => f.is_srgb)).headD first_format
  -- surface_caps.present_modes[0] / surface_caps.alpha_modes[0]
  let present_mode ← surface_caps.present_modes.head?
  let alpha_mode ← surface_caps.alpha_modes.head?
  let surface_config : SurfaceConfiguration :=
    { usage := TextureUsages.RENDER_ATTACHMENT
      format := surface_format
      width := size.width
      height := size.height
      present_mode := present_mode
      alpha_mode := alpha_mode
      view_formats := []
      desired_maximum_frame_latency := 2 }
  pure ({ instance_ := inst
          surface := surface
          surface_format := surface_format
          surface_config := surface_config
          adapter := adapter
          device := device
          queue := queue
          window := window
          size := size },
        [])

/-- `App::resize`.  Returns the updated struct and the trace of effects. -/
def App.resize (a : App) (new_size : PhysicalSize) : App × List Effect :=
  -- println!("Application Resized to ...") happens unconditionally
  if new_size.width > 0 ∧ new_size.height > 0 then
    let config :=
      { a.surface_config with width := new_size.width, height := new_size.height }
    ({ a with size := new_size, surface_config := config },
     [Effect.logResized new_size, Effect.configure a.device config])
  else
    (a, [Effect.logResized new_size])

/-- The window events the dispatch loop distinguishes. -/
inductive WindowEvent where
  | CloseRequested
  | Resized (physical_size : PhysicalSize)
  | ScaleFactorChanged
  | Other
deriving DecidableEq

/-- A platform event: a window event tagged with its window id, or
anything else. -/
inductive Event where
  | WindowEvent (event : WindowEvent) (window_id : Nat)
  | Other
deriving DecidableEq

/-- State of the event loop: the session plus whether `target.exit()`
has been called (Running vs Exiting). -/
structure LoopState where
  app : App
  exiting : Bool
deriving DecidableEq

/-- One turn of the event-loop closure of `main`, for the tracked
`window_id`.  Returns the updated loop state and the effects emitted
while handling the event. -/
def handleEvent (window_id : Nat) (st : LoopState) (ev : Event) :
    LoopState × List Effect :=
  match ev with
  | Event.WindowEvent event id =>
      if id = window_id then
        match event with
        | WindowEvent.CloseRequested =>
            ({ st with exiting := true }, [Effect.logCloseRequested])
        | WindowEvent.Resized physical_size =>
            let r := st.app.resize physical_size
            ({ st with app := r.1 }, r.2)
        | WindowEvent.ScaleFactorChanged =>
            -- inner_size_writer.request_inner_size(app.size).unwrap();
            -- app.resize(app.size);
            let r := st.app.resize st.app.size
            ({ st with app := r.1 },
             Effect.requestInnerSize st.app.size :: r.2)
        | WindowEvent.Other => (st, [])
      else (st, [])
  | Event.Other => (st, [])

/-- The session-mutating operations reachable after construction:
a `Resized(s)` event (calls `resize s`) or a `ScaleFactorChanged` event
(calls `resize` at the current size). -/
inductive SessionOp where
  | resized (new_size : PhysicalSize)
  | scaleFactorChanged
deriving DecidableEq

/-- Effect of one operation on the session alone. -/
def applyOp (a : App) : SessionOp → App
  | SessionOp.resized s => (a.resize s).1
  | SessionOp.scaleFactorChanged => (a.resize a.size).1

/-- Run a sequence of operations on the session. -/
def runOps (a : App) (ops : List SessionOp) : App :=
  ops.foldl applyOp a

/-- The spec's size invariant: the surface configuration mirrors the
tracked size. -/
def sizeInvariant (a : App) : Prop :=
  a.surface_config.width = a.size.width ∧
  a.surface_config.height = a.size.height

instance (a : App) : Decidable (sizeInvariant a) := by
  unfold sizeInvariant; infer_instance

/-- Modelled from the spec: "Apply the configuration to the surface via
the device" as the final construction step — the claim that the effect
trace of `App.new` contains a `configure` of the built configuration.
Written from the spec's words to be compared with `App.new`, which is
translated from the source. -/
def appliesConfigurationAtConstruction (r : Option (App × List Effect)) : Bool :=
  match r with
  | some (_, trace) =>
      trace.any (fun e =>
        match e with
        | Effect.configure _ _ => true
        | _ => false)
  | none => false

/-- Sample concrete values used by witnesses. -/
def sampleFormat : TextureFormat := { id := 27, srgb := true }

def sampleFormatLinear : TextureFormat := { id := 28, srgb := false }

def sampleCaps : SurfaceCapabilities :=
  { formats := [sampleFormatLinear, sampleFormat]
    present_modes := [{ id := 1 }]
    alpha_modes := [{ id := 2 }] }

def sampleWindow : Window := { id := 7, inner_size := { width := 800, height := 600 } }

def sampleApp : App :=
  { instance_ := { id := 0 }
    surface := { id := 1 }
    surface_format := sampleFormat
    surface_config :=
      { usage := TextureUsages.RENDER_ATTACHMENT
        format := sampleFormat
        width := 800
        height := 600
        present_mode := { id := 1 }
        alpha_mode := { id := 2 }
        view_formats := []
        desired_maximum_frame_latency := 2 }
    adapter := { id := 3 }
    device := { id := 4 }
    queue := { id := 5 }
    window := sampleWindow
    size := { width := 800, height := 600 } }

/-! ### Helper lemmas -/

theorem head_filter_eq_find {α : Type} (p : α → Bool) (l : List α) :
    (l.filter p).head? = l.find? p := by
  induction l with
  | nil => rfl
  | cons a t ih =>
    simp only [List.filter_cons, List.find?]
    cases h : p a with
    | true => simp
    | false => simp [ih]

theorem headD_of_head_eq_some {α : Type} {l : List α} {x d : α}
    (h : l.head? = some x) : l.headD d = x := by
  cases l <;> simp_all

theorem headD_of_head_eq_none {α : Type} {l : List α} {d : α}
    (h : l.head? = none) : l.headD d = d := by
  cases l <;> simp_all

/-- Inversion for `App.new`: a successful construction pins down every
field of the returned struct and shows the effect trace is empty. -/
theorem App.new_inv {window : Window} {inst : Instance} {surface : Surface}
    {adapter : Adapter} {device : Device} {queue : Queue}
    {caps : SurfaceCapabilities} {a : App} {trace : List Effect}
    (h : App.new window inst surface adapter device queue caps = some (a, trace)) :
    ∃ ff pm am,
      caps.formats.head? = some ff ∧
      caps.present_modes.head? = some pm ∧
      caps.alpha_modes.head? = some am ∧
      trace = [] ∧
      a = { instance_ := inst
            surface := surface
            surface_format := (caps.formats.filter fun f => f.is_srgb).headD ff
            surface_config :=
              { usage := TextureUsages.RENDER_ATTACHMENT
                format := (caps.formats.filter fun f => f.is_srgb).headD ff
                width := window.inner_size.width
                height := window.inner_size.height
                present_mode := pm
                alpha_mode := am
                view_formats := []
                desired_maximum_frame_latency := 2 }
            adapter := adapter
            device := device
            queue := queue
            window := window
            size := window.inner_size } := by
  cases hf : caps.formats.head? with
  | none => simp [App.new, hf] at h
  | some ff =>
    cases hp : caps.present_modes.head? with
    | none => simp [App.new, hf, hp] at h
    | some pm =>
      cases ha : caps.alpha_modes.head? with
      | none => simp [App.new, hf, hp, ha] at h
      | some am =>
        refine ⟨ff, pm, am, rfl, rfl, rfl, ?_, ?_⟩ <;>
          · simp [App.new, hf, hp, ha] at h
            simp [← h.1, ← h.2]

/-- Any state satisfying the size invariant still satisfies it after a
`resize`; a valid resize re-establishes it, a zero-area resize keeps the
state untouched. -/
theorem sizeInvariant_resize {a : App} (h : sizeInvariant a)
    (s : PhysicalSize) : sizeInvariant (a.resize s).1 := by
  unfold App.resize
  split
  · exact ⟨rfl, rfl⟩
  · exact h

theorem sizeInvariant_applyOp {a : App} (h : sizeInvariant a)
    (op : SessionOp) : sizeInvariant (applyOp a op) := by
  cases op with
  | resized s => exact sizeInvariant_resize h s
  | scaleFactorChanged => exact sizeInvariant_resize h a.size

theorem sizeInvariant_runOps {a : App} (h : sizeInvariant a)
    (ops : List SessionOp) : sizeInvariant (runOps a ops) := by
  induction ops generalizing a with
  | nil => exact h
  | cons op t ih => exact ih (sizeInvariant_applyOp h op)

/-! ### Claims -/

/-- Claim C1 (counterexample): at a concrete construction input, the
effect trace of `App.new` contains no `configure` call at all, so
construction does not apply the built configuration to the surface —
neither as its final step nor anywhere else. -/
theorem c1_new_configures_counterexample :
    appliesConfigurationAtConstruction
      (App.new sampleWindow { id := 0 } { id := 1 } { id := 3 } { id := 4 }
        { id := 5 } sampleCaps) = false := by
  rfl

/-- Claim C1 (amended): construction builds the initial surface
configuration and stores it in the session (its width/height taken from
the window's inner size and its format equal to the selected surface
format), but performs no observable effect: in particular it never
applies the configuration to the surface. -/
theorem c1_new_does_not_configure (window : Window) (inst : Instance)
    (surface : Surface) (adapter : Adapter) (device : Device) (queue : Queue)
    (caps : SurfaceCapabilities) (a : App) (trace : List Effect)
    (h : App.new window inst surface adapter device queue caps = some (a, trace)) :
    trace = [] ∧
    a.surface_config.format = a.surface_format ∧
    a.surface_config.width = window.inner_size.width ∧
    a.surface_config.height = window.inner_size.height := by
  obtain ⟨ff, pm, am, hf, hp, ha, ht, hA⟩ := App.new_inv h
  subst hA
  exact ⟨ht, rfl, rfl, rfl⟩

/-- Claim C1 witness for the amended theorem, at a concrete input. -/
theorem c1_witness :
    ([] : List Effect) = [] ∧
    sampleApp.surface_config.format = sampleApp.surface_format ∧
    sampleApp.surface_config.width = sampleWindow.inner_size.width ∧
    sampleApp.surface_config.height = sampleWindow.inner_size.height :=
  c1_new_does_not_configure sampleWindow { id := 0 } { id := 1 } { id := 3 }
    { id := 4 } { id := 5 } sampleCaps sampleApp [] (by decide)

/-- Claim C2: a resize to a strictly positive size sets the tracked size
and the configuration's width/height to exactly that size, and its effect
trace is the diagnostic print followed immediately by a `configure` of
the updated configuration via the session's device. -/
theorem c2_resize_valid (a : App) (w h : Nat) (hw : 0 < w) (hh : 0 < h) :
    (a.resize ⟨w, h⟩).1.size = ⟨w, h⟩ ∧
    (a.resize ⟨w, h⟩).1.surface_config.width = w ∧
    (a.resize ⟨w, h⟩).1.surface_config.height = h ∧
    (a.resize ⟨w, h⟩).2 =
      [Effect.logResized ⟨w, h⟩,
       Effect.configure a.device (a.resize ⟨w, h⟩).1.surface_config] := by
  unfold App.resize
  rw [if_pos ⟨hw, hh⟩]
  exact ⟨rfl, rfl, rfl, rfl⟩

/-- Claim C2 witness at a concrete session and size. -/
theorem c2_witness :
    (sampleApp.resize ⟨1024, 768⟩).1.size = ⟨1024, 768⟩ ∧
    (sampleApp.resize ⟨1024, 768⟩).1.surface_config.width = 1024 ∧
    (sampleApp.resize ⟨1024, 768⟩).1.surface_config.height = 768 ∧
    (sampleApp.resize ⟨1024, 768⟩).2 =
      [Effect.logResized ⟨1024, 768⟩,
       Effect.configure sampleApp.device
         (sampleApp.resize ⟨1024, 768⟩).1.surface_config] :=
  c2_resize_valid sampleApp 1024 768 (by decide) (by decide)

/-- Claim C3: a resize with a zero width or height leaves the session
(tracked size and the entire surface configuration included) unchanged
and emits no `configure` effect. -/
theorem c3_resize_zero (a : App) (w h : Nat) (hzero : w = 0 ∨ h = 0) :
    (a.resize ⟨w, h⟩).1 = a ∧
    ∀ d c, Effect.configure d c ∉ (a.resize ⟨w, h⟩).2 := by
  have hc : ¬((⟨w, h⟩ : PhysicalSize).width > 0 ∧
      (⟨w, h⟩ : PhysicalSize).height > 0) := by
    rcases hzero with rfl | rfl <;> simp
  unfold App.resize
  rw [if_neg hc]
  refine ⟨rfl, ?_⟩
  intro d c hmem
  simp at hmem

/-- Claim C3 witness: a minimize-style event with zero width. -/
theorem c3_witness :
    (sampleApp.resize ⟨0, 300⟩).1 = sampleApp ∧
    ∀ d c, Effect.configure d c ∉ (sampleApp.resize ⟨0, 300⟩).2 :=
  c3_resize_zero sampleApp 0 300 (Or.inl rfl)

/-- Claim C4: handling `ScaleFactorChanged` for the tracked window never
changes the tracked size, and the handler first asks the platform to
re-apply the current size. -/
theorem c4_scale_factor_preserves_size (window_id : Nat) (st : LoopState) :
    (handleEvent window_id st
        (Event.WindowEvent WindowEvent.ScaleFactorChanged window_id)).1.app.size =
      st.app.size ∧
    ((handleEvent window_id st
        (Event.WindowEvent WindowEvent.ScaleFactorChanged window_id)).2).head? =
      some (Effect.requestInnerSize st.app.size) := by
  simp only [handleEvent, if_pos]
  refine ⟨?_, rfl⟩
  unfold App.resize
  split
  · rfl
  · rfl

/-- Claim C5: the size invariant (configuration width/height mirror the
tracked size) holds in every state reachable from a successful
construction by any sequence of resize and scale-factor-change
operations, zero-area resizes included. -/
theorem c5_size_invariant_reachable (window : Window) (inst : Instance)
    (surface : Surface) (adapter : Adapter) (device : Device) (queue : Queue)
    (caps : SurfaceCapabilities) (a : App) (trace : List Effect)
    (ops : List SessionOp)
    (h : App.new window inst surface adapter device queue caps = some (a, trace)) :
    sizeInvariant (runOps a ops) := by
  have h0 : sizeInvariant a := by
    obtain ⟨ff, pm, am, hf, hp, ha, ht, hA⟩ := App.new_inv h
    subst hA
    exact ⟨rfl, rfl⟩
  exact sizeInvariant_runOps h0 ops

/-- Claim C5 witness: the end-to-end scenario of the spec, from a concrete
construction through a valid resize, a zero-area resize and a
scale-factor change. -/
theorem c5_witness :
    sizeInvariant (runOps sampleApp
      [SessionOp.resized ⟨1024, 768⟩, SessionOp.resized ⟨0, 300⟩,
       SessionOp.scaleFactorChanged]) :=
  c5_size_invariant_reachable sampleWindow { id := 0 } { id := 1 } { id := 3 }
    { id := 4 } { id := 5 } sampleCaps sampleApp []
    [SessionOp.resized ⟨1024, 768⟩, SessionOp.resized ⟨0, 300⟩,
     SessionOp.scaleFactorChanged] (by decide)

/-- Claim C6: the surface format a successful construction selects is the
first capability-reported format that is sRGB if one exists, else the
first reported format; either way it is an element of the reported
format list. -/
theorem c6_format_selection (window : Window) (inst : Instance)
    (surface : Surface) (adapter : Adapter) (device : Device) (queue : Queue)
    (caps : SurfaceCapabilities) (a : App) (trace : List Effect)
    (h : App.new window inst surface adapter device queue caps = some (a, trace)) :
    a.surface_format ∈ caps.formats ∧
    ((caps.formats.find? fun f => f.is_srgb).orElse
        fun _ => caps.formats.head?) = some a.surface_format := by
  obtain ⟨ff, pm, am, hf, hp, ha, ht, hA⟩ := App.new_inv h
  subst hA
  cases hfind : caps.formats.find? fun f => f.is_srgb with
  | some g =>
    have hhead : (caps.formats.filter fun f => f.is_srgb).head? = some g := by
      rw [head_filter_eq_find, hfind]
    have hsel : (caps.formats.filter fun f => f.is_srgb).headD ff = g :=
      headD_of_head_eq_some hhead
    refine ⟨?_, ?_⟩
    · simp only [hsel]
      exact List.mem_of_find?_eq_some hfind
    · simp [hfind, hsel]
  | none =>
    have hhead : (caps.formats.filter fun f => f.is_srgb).head? = none := by
      rw [head_filter_eq_find, hfind]
    have hsel : (caps.formats.filter fun f => f.is_srgb).headD ff = ff :=
      headD_of_head_eq_none hhead
    refine ⟨?_, ?_⟩
    · simp only [hsel]
      exact List.mem_of_mem_head? (by simp [hf])
    · simp [hfind, hsel, Option.orElse, hf]

/-- Claim C6 witness: concrete capabilities listing a non-sRGB format
before an sRGB one; the sRGB one is selected. -/
theorem c6_witness :
    sampleApp.surface_format ∈ sampleCaps.formats ∧
    ((sampleCaps.formats.find? fun f => f.is_srgb).orElse
        fun _ => sampleCaps.formats.head?) = some sampleApp.surface_format :=
  c6_format_selection sampleWindow { id := 0 } { id := 1 } { id := 3 }
    { id := 4 } { id := 5 } sampleCaps sampleApp [] (by decide)

/-- Claim C7: a `CloseRequested` event carrying the tracked window's id
sets the loop's exiting flag; any window event carrying a different id —
`CloseRequested` included, as the quantified event covers it — leaves the
loop state (session and exiting flag) exactly as it was. -/
theorem c7_close_requested (window_id : Nat) (st : LoopState) (id : Nat)
    (ev : WindowEvent) (hne : id ≠ window_id) :
    (handleEvent window_id st
        (Event.WindowEvent WindowEvent.CloseRequested window_id)).1.exiting = true ∧
    (handleEvent window_id st (Event.WindowEvent ev id)).1 = st := by
  constructor
  · simp [handleEvent]
  · simp [handleEvent, hne]

/-- Claim C7 witness: a close request on the tracked id 7 exits; a close
request bearing id 8 leaves the state untouched. -/
theorem c7_witness :
    (handleEvent 7 ⟨sampleApp, false⟩
        (Event.WindowEvent WindowEvent.CloseRequested 7)).1.exiting = true ∧
    (handleEvent 7 ⟨sampleApp, false⟩
        (Event.WindowEvent WindowEvent.CloseRequested 8)).1 = ⟨sampleApp, false⟩ :=
  c7_close_requested 7 ⟨sampleApp, false⟩ 8 WindowEvent.CloseRequested (by decide)

/-- Claim C8: resizing twice in a row to the same strictly positive size
yields the same session state as resizing once. -/
theorem c8_resize_idempotent (a : App) (w h : Nat) (hw : 0 < w) (hh : 0 < h) :
    ((a.resize ⟨w, h⟩).1.resize ⟨w, h⟩).1 = (a.resize ⟨w, h⟩).1 := by
  have hc : (⟨w, h⟩ : PhysicalSize).width > 0 ∧
      (⟨w, h⟩ : PhysicalSize).height > 0 := ⟨hw, hh⟩
  unfold App.resize
  simp only [if_pos hc]

/-- Claim C8 witness at a concrete session and size. -/
theorem c8_witness :
    ((sampleApp.resize ⟨1024, 768⟩).1.resize ⟨1024, 768⟩).1 =
      (sampleApp.resize ⟨1024, 768⟩).1 :=
  c8_resize_idempotent sampleApp 1024 768 (by decide) (by decide)

/-- Claim C9: with all three capability lists non-empty, construction's
list indexing cannot panic (`App.new` returns `some`); with an empty
formats list the indexing is reached and panics (`App.new` returns
`none`), there being no defensive handling. -/
theorem c9_capability_indexing (window : Window) (inst : Instance)
    (surface : Surface) (adapter : Adapter) (device : Device) (queue : Queue)
    (caps caps2 : SurfaceCapabilities)
    (hf : caps.formats ≠ []) (hp : caps.present_modes ≠ [])
    (ha : caps.alpha_modes ≠ []) (h2 : caps2.formats = []) :
    (App.new window inst surface adapter device queue caps).isSome = true ∧
    App.new window inst surface adapter device queue caps2 = none := by
  constructor
  · obtain ⟨f0, fs, hcf⟩ := List.exists_cons_of_ne_nil hf
    obtain ⟨p0, ps, hcp⟩ := List.exists_cons_of_ne_nil hp
    obtain ⟨a0, as, hca⟩ := List.exists_cons_of_ne_nil ha
    simp [App.new, hcf, hcp, hca]
  · simp [App.new, h2]

/-- Claim C9 witness: sample capabilities succeed; emptying the formats
list makes construction reach the panic. -/
theorem c9_witness :
    (App.new sampleWindow { id := 0 } { id := 1 } { id := 3 } { id := 4 }
        { id := 5 } sampleCaps).isSome = true ∧
    App.new sampleWindow { id := 0 } { id := 1 } { id := 3 } { id := 4 }
        { id := 5 } { formats := [], present_modes := [{ id := 1 }],
                      alpha_modes := [{ id := 2 }] } = none :=
  c9_capability_indexing sampleWindow { id := 0 } { id := 1 } { id := 3 }
    { id := 4 } { id := 5 } sampleCaps
    { formats := [], present_modes := [{ id := 1 }], alpha_modes := [{ id := 2 }] }
    (by decide) (by decide) (by decide) (by decide)

/-- Claim C10: for every input size, valid or zero-area, `resize` leaves
every session field other than the tracked size and the configuration's
width and height unchanged. -/
theorem c10_resize_frame (a : App) (s : PhysicalSize) :
    (a.resize s).1.surface_format = a.surface_format ∧
    (a.resize s).1.instance_ = a.instance_ ∧
    (a.resize s).1.surface = a.surface ∧
    (a.resize s).1.adapter = a.adapter ∧
    (a.resize s).1.device = a.device ∧
    (a.resize s).1.queue = a.queue ∧
    (a.resize s).1.window = a.window ∧
    (a.resize s).1.surface_config.usage = a.surface_config.usage ∧
    (a.resize s).1.surface_config.format = a.surface_config.format ∧
    (a.resize s).1.surface_config.present_mode = a.surface_config.present_mode ∧
    (a.resize s).1.surface_config.alpha_mode = a.surface_config.alpha_mode ∧
    (a.resize s).1.surface_config.view_formats = a.surface_config.view_formats ∧
    (a.resize s).1.surface_config.desired_maximum_frame_latency =
      a.surface_config.desired_maximum_frame_latency := by
  unfold App.resize
  split <;>
    exact ⟨rfl, rfl, rfl, rfl, rfl, rfl, rfl, rfl, rfl, rfl, rfl, rfl, rfl⟩
